import Mathlib

/-!
Shallow embedding of the host orchestrator in `main.js` of vibecheck-pro:
the `get-file-info` and `analyze-file` IPC handlers, the Python-path
resolution and Flask sidecar startup, and the electron-updater event
wiring (update-available / update-downloaded listeners, the hourly
check timer and the auto-updater configuration flags).
-/

namespace Vibecheck

/-- A JavaScript value as it appears in the JSON payloads handled by
`main.js`. `undef` stands for `undefined`, the result of reading an
absent field. Nested objects never occur in the payloads the handlers
read field-wise, so fields are flat values. -/
inductive JSVal where
  | undef
  | null
  | bool (b : Bool)
  | num (n : Int)
  | str (s : String)
deriving DecidableEq, Repr

/-- JavaScript truthiness, as used by `if (x)` and `x || y` in
`main.js`: `undefined`, `null`, `false`, `0` and the empty string are
falsy. -/
def truthy : JSVal → Bool
  | .undef => false
  | .null => false
  | .bool b => b
  | .num n => n != 0
  | .str s => s != ""

/-- JavaScript `a || b`: `b` when `a` is falsy, otherwise `a`. -/
def jsOr (a b : JSVal) : JSVal := if truthy a then a else b

/-- A JavaScript object literal, as its list of named fields in source
order. -/
abbrev JSObj := List (String × JSVal)

/-- Field access on a result object (`undefined`-free lookup: `none`
means the object has no field of that name). -/
def getField : JSObj → String → Option JSVal
  | [], _ => none
  | (k, v) :: rest, key => if k = key then some v else getField rest key

/-- The three field reads the analyze-file handler performs on
`response.data`: `success`, `reportPath` and `error`. A malformed or
non-object body makes every field read yield `undefined`. -/
structure ResponseData where
  success : JSVal
  reportPath : JSVal
  error : JSVal
deriving DecidableEq, Repr

/-- Outcome of the `axios.post` call in the analyze-file handler:
either a transport-level success carrying the parsed body, or a thrown
transport error (connection refused, non-2xx status, timeout) carrying
its `message` string. -/
inductive Transport where
  | response (data : ResponseData)
  | fault (message : String)
deriving DecidableEq, Repr

/-- The analyze-file IPC handler, `main.js` lines 180-209. On a
response whose `success` field is truthy it returns
`\x7b success: true, path: response.data.reportPath \x7d`; on a falsy
`success` it returns
`\x7b success: false, error: response.data.error || "Analysis failed" \x7d`;
a thrown transport error is caught and mapped to
`\x7b success: false, error: error.message || "Failed to analyze file" \x7d`.
The handler never rethrows: every outcome is a returned object. -/
def analyzeFile : Transport → JSObj
  | .response data =>
      if truthy data.success then
        [("success", .bool true), ("path", data.reportPath)]
      else
        [("success", .bool false), ("error", jsOr data.error (.str "Analysis failed"))]
  | .fault message =>
      [("success", .bool false), ("error", jsOr (.str message) (.str "Failed to analyze file"))]

end Vibecheck

namespace Vibecheck

/-- C2, as stated, fails on the code: for the sidecar response
`success: true, reportPath: "X"`, the analyze-file result object has no
field named `reportPath` at all; the report path is carried under the
field name `path` (main.js line 194 renames it). -/
theorem c2_reportPath_field_absent :
    getField (analyzeFile (.response ⟨.bool true, .str "X", .undef⟩)) "reportPath" = none ∧
    getField (analyzeFile (.response ⟨.bool true, .str "X", .undef⟩)) "path" = some (.str "X") := by
  decide

/-- C2 amended: for every sidecar response of the form
`success: true, reportPath: "X"`, analyze-file returns the success
variant carrying the report path "X" under the field name `path`. -/
theorem c2_success_carries_path (x : String) :
    analyzeFile (.response ⟨.bool true, .str x, .undef⟩)
      = [("success", .bool true), ("path", .str x)] ∧
    getField (analyzeFile (.response ⟨.bool true, .str x, .undef⟩)) "path"
      = some (.str x) := by
  refine ⟨rfl, ?_⟩
  simp [analyzeFile, truthy, getField]

/-- Closed instance of the amended C2 at the concrete report path "W". -/
theorem c2_success_carries_path_witness :
    getField (analyzeFile (.response ⟨.bool true, .str "W", .undef⟩)) "path"
      = some (.str "W") :=
  (c2_success_carries_path "W").2

/-- C5: every transport-level fault of the analyze call (connection
refusal, non-2xx status, timeout — all thrown by axios and caught by the
handler) yields the failure object with a non-empty error message, and a
malformed response body (all field reads `undefined`) yields the failure
object with message "Analysis failed"; no outcome is rethrown. -/
theorem c5_transport_fault_nonempty_failure (msg : String) :
    (∃ e, analyzeFile (.fault msg) = [("success", .bool false), ("error", .str e)] ∧ e ≠ "") ∧
    analyzeFile (.response ⟨.undef, .undef, .undef⟩)
      = [("success", .bool false), ("error", .str "Analysis failed")] := by
  constructor
  · by_cases h : msg = ""
    · refine ⟨"Failed to analyze file", ?_, by decide⟩
      simp [analyzeFile, jsOr, truthy, h]
    · refine ⟨msg, ?_, h⟩
      simp [analyzeFile, jsOr, truthy, h]
  · rfl

/-- Closed instance of C5 at a concrete connection-refusal message. -/
theorem c5_transport_fault_witness :
    ∃ e, analyzeFile (.fault "connect ECONNREFUSED 127.0.0.1:5000")
      = [("success", .bool false), ("error", .str e)] ∧ e ≠ "" :=
  (c5_transport_fault_nonempty_failure "connect ECONNREFUSED 127.0.0.1:5000").1

/-- C6: for every sidecar response `success: false, error: E` with E a
non-empty string, analyze-file returns the failure object whose error
message is exactly E. -/
theorem c6_failure_message_exact (err : String) (h : err ≠ "") :
    analyzeFile (.response ⟨.bool false, .undef, .str err⟩)
      = [("success", .bool false), ("error", .str err)] := by
  simp [analyzeFile, jsOr, truthy, h]

/-- Closed instance of C6 at the error string "bad format". -/
theorem c6_failure_message_exact_witness :
    analyzeFile (.response ⟨.bool false, .undef, .str "bad format"⟩)
      = [("success", .bool false), ("error", .str "bad format")] :=
  c6_failure_message_exact "bad format" (by decide)

/-- C10: a falsy `success` with an absent or empty `error` field yields
the default message "Analysis failed"; a transport fault with an empty
message yields the default "Failed to analyze file"; and every transport
fault yields a non-empty error string. -/
theorem c10_default_failure_messages :
    (∀ d : ResponseData, truthy d.success = false → (d.error = .undef ∨ d.error = .str "") →
      analyzeFile (.response d) = [("success", .bool false), ("error", .str "Analysis failed")]) ∧
    analyzeFile (.fault "") = [("success", .bool false), ("error", .str "Failed to analyze file")] ∧
    (∀ msg : String, ∃ e,
      getField (analyzeFile (.fault msg)) "error" = some (.str e) ∧ e ≠ "") := by
  refine ⟨?_, rfl, ?_⟩
  · intro d hs he
    have h2 : jsOr d.error (.str "Analysis failed") = .str "Analysis failed" := by
      rcases he with he | he <;> rw [he] <;> rfl
    simp [analyzeFile, hs, h2]
  · intro msg
    by_cases h : msg = ""
    · exact ⟨"Failed to analyze file", by simp [analyzeFile, jsOr, truthy, getField, h], by decide⟩
    · exact ⟨msg, by simp [analyzeFile, jsOr, truthy, getField, h], h⟩

/-- Closed instance of C10: both default messages at concrete inputs. -/
theorem c10_default_failure_messages_witness :
    analyzeFile (.response ⟨.bool false, .undef, .undef⟩)
      = [("success", .bool false), ("error", .str "Analysis failed")] ∧
    analyzeFile (.fault "")
      = [("success", .bool false), ("error", .str "Failed to analyze file")] :=
  ⟨c10_default_failure_messages.1 ⟨.bool false, .undef, .undef⟩ rfl (Or.inl rfl),
   c10_default_failure_messages.2.1⟩

end Vibecheck

namespace Vibecheck

/-- What the operating system holds at a path when `fs.promises.stat`
is called: a regular file with its byte contents and modification time,
or one of the two failure modes the claims quantify over (nonexistent
path, inaccessible path). -/
inductive FsEntry where
  | file (bytes : List Nat) (mtimeMs : Int)
  | enoent
  | eacces
deriving DecidableEq, Repr

/-- The filesystem as seen by one `stat` call: path to entry. -/
abbrev FileSystem := String → FsEntry

/-- The code of the error `fs.promises.stat` rejects with. -/
inductive FsErrorCode where
  | ENOENT
  | EACCES
deriving DecidableEq, Repr

/-- The stat fields `main.js` reads: `size` and `mtime`. -/
structure FileStats where
  size : Nat
  mtimeMs : Int
deriving DecidableEq, Repr

/-- Node `fs.promises.stat`: resolves with stats whose `size` is the
file's actual byte length, or rejects with the error code. -/
def fsStat (fs : FileSystem) (p : String) : Except FsErrorCode FileStats :=
  match fs p with
  | .file bytes mtimeMs => .ok ⟨bytes.length, mtimeMs⟩
  | .enoent => .error .ENOENT
  | .eacces => .error .EACCES

/-- Node `path.basename` (POSIX rules): drop trailing separators, then
keep the final path component. -/
def basename (p : String) : String :=
  let rcs := p.data.reverse.dropWhile (fun c => c = '/')
  String.mk (rcs.takeWhile (fun c => c != '/')).reverse

/-- The object the get-file-info handler returns on success. -/
structure FileInfo where
  name : String
  size : Nat
  lastModified : Int
deriving DecidableEq, Repr

/-- The get-file-info IPC handler, `main.js` lines 165-177: stat the
path and return name (basename), size and lastModified; a stat failure
is caught, logged and rethrown, which the IPC layer delivers to the
renderer as a rejected invoke promise — modelled as `Except.error`. The
success object is built only after `stat` resolves, from its fields. -/
def getFileInfo (fs : FileSystem) (p : String) : Except FsErrorCode FileInfo :=
  match fsStat fs p with
  | .ok stats => .ok ⟨basename p, stats.size, stats.mtimeMs⟩
  | .error e => .error e

end Vibecheck

namespace Vibecheck

/-- C4: for every path that does not exist or is inaccessible,
get-file-info fails with the file-access error (delivered as the error
arm of the discriminated result, i.e. a rejected invoke promise) and
never returns any populated success object. -/
theorem c4_missing_path_fails (fs : FileSystem) (p : String)
    (h : fs p = .enoent ∨ fs p = .eacces) :
    (∃ e, getFileInfo fs p = .error e) ∧ ∀ info, getFileInfo fs p ≠ .ok info := by
  have he : ∃ e, getFileInfo fs p = .error e := by
    rcases h with h | h
    · exact ⟨.ENOENT, by simp [getFileInfo, fsStat, h]⟩
    · exact ⟨.EACCES, by simp [getFileInfo, fsStat, h]⟩
  refine ⟨he, ?_⟩
  intro info hok
  rcases he with ⟨e, he⟩
  rw [hok] at he
  exact Except.noConfusion he

/-- Closed instance of C4 on a filesystem where the path is absent. -/
theorem c4_missing_path_fails_witness :
    (∃ e, getFileInfo (fun _ => FsEntry.enoent) "/missing.ide" = .error e) ∧
    ∀ info, getFileInfo (fun _ => FsEntry.enoent) "/missing.ide" ≠ .ok info :=
  c4_missing_path_fails (fun _ => FsEntry.enoent) "/missing.ide" (Or.inl rfl)

/-- C9: for every existing readable file, get-file-info returns the
file's actual byte length as `size` and the path's base name as
`name`. -/
theorem c9_info_size_and_name (fs : FileSystem) (p : String)
    (bytes : List Nat) (m : Int) (h : fs p = .file bytes m) :
    getFileInfo fs p = .ok ⟨basename p, bytes.length, m⟩ := by
  simp [getFileInfo, fsStat, h]

set_option maxRecDepth 8192 in
/-- Closed instance of C9: a 1024-byte file at /data/sample.ide yields
name "sample.ide" and size 1024. -/
theorem c9_info_size_and_name_witness :
    getFileInfo
      (fun q => if q = "/data/sample.ide" then FsEntry.file (List.replicate 1024 0) 5
                else FsEntry.enoent)
      "/data/sample.ide"
      = .ok ⟨"sample.ide", 1024, 5⟩ :=
  c9_info_size_and_name _ "/data/sample.ide" (List.replicate 1024 0) 5 (by simp)

end Vibecheck

namespace Vibecheck

/-- The process platforms `getPythonPath` distinguishes. -/
inductive Os where
  | win32
  | darwin
  | linux
deriving DecidableEq, Repr

/-- Node `path.sep` for the platform. -/
def sep (os : Os) : String :=
  match os with
  | .win32 => "\\"
  | _ => "/"

/-- Node `path.join` on plain non-empty segments: intercalate with the
platform separator. -/
def pathJoin (os : Os) (segs : List String) : String :=
  String.intercalate (sep os) segs

/-- The process environment `main.js` consults: `NODE_ENV`,
`process.platform`, `process.resourcesPath` (absent outside a packaged
build) and `fs.existsSync`. -/
structure Env where
  isDev : Bool
  os : Os
  resourcesPath : Option String
  existsSync : String → Bool

/-- The bundled interpreter location inside the packaged resources, as
built by the platform ternary in `getPythonPath` (main.js 34-37). -/
def bundledPythonPath (os : Os) (resourcesPath : String) : String :=
  if os = .win32 then
    pathJoin os [resourcesPath, "python", "Scripts", "python.exe"]
  else
    pathJoin os [resourcesPath, "python", "bin", "python3"]

/-- The function `getPythonPath` (main.js 23-44): in development mode it
returns a well-known interpreter name to be resolved on the PATH; in a
packaged mode it requires `process.resourcesPath` to be set and
non-empty and the bundled interpreter to exist on disk, otherwise it
throws — modelled as `Except.error` carrying the thrown message. -/
def getPythonPath (e : Env) : Except String String :=
  if e.isDev then
    .ok (if e.os = .win32 then "python" else "python3")
  else
    match e.resourcesPath with
    | none => .error "Resources path not found"
    | some rp =>
        if rp = "" then .error "Resources path not found"
        else
          let pythonPath := bundledPythonPath e.os rp
          if e.existsSync pythonPath then .ok pythonPath
          else .error ("Python executable not found at: " ++ pythonPath)

/-- Visible outcome of `startFlaskServer` (main.js 75-106): either the
sidecar is spawned with a resolved executable and the Flask script, or
the thrown resolution error is caught and surfaced exactly once as a
blocking error dialog, in which case nothing is spawned. -/
inductive ServerStart where
  | spawned (exe : String) (script : String)
  | errorDialog (title : String) (message : String)
deriving DecidableEq, Repr

/-- The function `startFlaskServer` (main.js 75-106): resolve the
Python path, then spawn it on `flask_server.py` next to the
application; a throw from `getPythonPath` lands in the catch block and
shows the Server Error dialog. -/
def startFlaskServer (e : Env) (dirname : String) : ServerStart :=
  match getPythonPath e with
  | .ok pythonPath => .spawned pythonPath (pathJoin e.os [dirname, "flask_server.py"])
  | .error msg => .errorDialog "Server Error" ("Failed to start server: " ++ msg)

/-- The spec's ServiceProcessState reading of a startup outcome: a
successful spawn reaches Running, a surfaced startup error is Failed. -/
inductive ServiceState where
  | NotStarted
  | Running
  | Failed (reason : String)
deriving DecidableEq, Repr

/-- The ServiceProcessState reached right after `startFlaskServer`. -/
def stateAfterStart : ServerStart → ServiceState
  | .spawned _ _ => .Running
  | .errorDialog _ msg => .Failed msg

end Vibecheck

namespace Vibecheck

/-- C8: in packaged mode with the bundled interpreter missing from
disk, startup surfaces one executable-not-found error dialog, never
spawns the sidecar and never reaches Running; in development mode the
executable resolves to the well-known interpreter name for the
platform. -/
theorem c8_missing_bundled_python (e : Env) (rp dirname : String)
    (hdev : e.isDev = false) (hrp : e.resourcesPath = some rp) (hne : rp ≠ "")
    (hmiss : e.existsSync (bundledPythonPath e.os rp) = false) :
    startFlaskServer e dirname
      = .errorDialog "Server Error"
          ("Failed to start server: "
            ++ ("Python executable not found at: " ++ bundledPythonPath e.os rp)) ∧
    (∀ exe script, startFlaskServer e dirname ≠ .spawned exe script) ∧
    stateAfterStart (startFlaskServer e dirname) ≠ .Running ∧
    (∀ edev : Env, edev.isDev = true →
      getPythonPath edev = .ok (if edev.os = .win32 then "python" else "python3")) := by
  have hpy : getPythonPath e
      = .error ("Python executable not found at: " ++ bundledPythonPath e.os rp) := by
    simp [getPythonPath, hdev, hrp, hne, hmiss]
  have hs : startFlaskServer e dirname
      = .errorDialog "Server Error"
          ("Failed to start server: "
            ++ ("Python executable not found at: " ++ bundledPythonPath e.os rp)) := by
    simp [startFlaskServer, hpy]
  refine ⟨hs, ?_, ?_, ?_⟩
  · intro exe script hcon
    rw [hs] at hcon
    exact ServerStart.noConfusion hcon
  · rw [hs]
    intro hcon
    exact ServiceState.noConfusion hcon
  · intro edev hdev2
    simp [getPythonPath, hdev2]

/-- Closed instance of C8: a packaged Linux environment with an empty
disk surfaces the executable-not-found dialog and spawns nothing. -/
theorem c8_missing_bundled_python_witness :
    startFlaskServer ⟨false, Os.linux, some "/res", fun _ => false⟩ "/app"
      = .errorDialog "Server Error"
          ("Failed to start server: "
            ++ ("Python executable not found at: " ++ bundledPythonPath Os.linux "/res")) ∧
    (∀ exe script,
      startFlaskServer ⟨false, Os.linux, some "/res", fun _ => false⟩ "/app"
        ≠ .spawned exe script) :=
  ⟨(c8_missing_bundled_python ⟨false, Os.linux, some "/res", fun _ => false⟩
      "/res" "/app" rfl rfl (by decide) rfl).1,
   (c8_missing_bundled_python ⟨false, Os.linux, some "/res", fun _ => false⟩
      "/res" "/app" rfl rfl (by decide) rfl).2.1⟩

end Vibecheck

namespace Vibecheck

/-- The auto-updater flag set at `main.js` line 20: downloads are not
automatic. -/
def autoDownload : Bool := false

/-- The auto-updater flag set at `main.js` line 21: a pending update is
installed when the application quits. -/
def autoInstallOnAppQuit : Bool := true

/-- The user's answer to a Yes/No confirmation dialog
(`result.response` 0 is Yes, 1 is No). -/
inductive Ans where
  | yes
  | no
deriving DecidableEq, Repr

/-- An observable action of the update wiring. -/
inductive UAction where
  | showPrompt (title : String)
  | sendStatus (s : String)
  | downloadUpdate
  | quitAndInstall
  | checkCall
deriving DecidableEq, Repr

/-- Dispatch of the `update-available` event to its two registered
listeners in registration order: the first (main.js 115-128) shows the
download prompt and, once the user answers Yes, calls
`autoUpdater.downloadUpdate()`; the second (main.js 216-218) only sends
a status string. Actions are listed in temporal order; the tail after
the two synchronous actions is the first listener's dialog continuation
once the user has answered. -/
def onUpdateAvailable (ans : Ans) : List UAction :=
  [.showPrompt "Update Available", .sendStatus "Update available. Downloading..."]
    ++ (if ans = .yes then [.downloadUpdate] else [])

/-- Dispatch of the `update-downloaded` event to its two registered
listeners in registration order: the first (main.js 130-143) shows the
install prompt and, once the user answers Yes, calls
`autoUpdater.quitAndInstall()`; the second (main.js 232-235) sends a
status string and then calls `autoUpdater.quitAndInstall()`
unconditionally, during the synchronous dispatch and hence before the
first listener's dialog can even be answered. -/
def onUpdateDownloaded (ans : Ans) : List UAction :=
  [.showPrompt "Update Ready", .sendStatus "Update downloaded. Restarting...",
   .quitAndInstall]
    ++ (if ans = .yes then [.quitAndInstall] else [])

/-- The update status the spec's UpdateInfo state machine tracks at the
moment a timer tick occurs. -/
inductive UpdStatus where
  | Idle
  | Checking
  | Downloading
  | Downloaded
deriving DecidableEq, Repr

/-- The `checkForUpdates` helper (main.js 109-113): it unconditionally
calls `autoUpdater.checkForUpdates()` (logging rejections). -/
def checkForUpdates : List UAction := [.checkCall]

/-- The hourly interval callback (main.js 238-240): it reads no state
at all and unconditionally calls `autoUpdater.checkForUpdates()`. The
parameter records the update status the claim conditions on, which the
callback ignores. -/
def intervalTick (_status : UpdStatus) : List UAction := [.checkCall]

end Vibecheck

namespace Vibecheck

/-- C1 fails on the code: dispatching `update-downloaded` reaches
`quitAndInstall` even when the user declines the install prompt — the
second registered listener quits and installs unconditionally, before
the answer. -/
theorem c1_installs_without_accept :
    UAction.quitAndInstall ∈ onUpdateDownloaded Ans.no ∧
    onUpdateDownloaded Ans.no
      = [UAction.showPrompt "Update Ready",
         UAction.sendStatus "Update downloaded. Restarting...",
         UAction.quitAndInstall] ∧
    autoInstallOnAppQuit = true := by
  refine ⟨?_, rfl, rfl⟩
  simp [onUpdateDownloaded]

/-- C3 fails on the code: the hourly timer callback issues a check call
regardless of the current update status, in particular while Checking
or Downloading, and behaves identically to the Idle case; it is never a
no-op. -/
theorem c3_timer_checks_unconditionally :
    intervalTick UpdStatus.Downloading = [UAction.checkCall] ∧
    intervalTick UpdStatus.Checking = [UAction.checkCall] ∧
    intervalTick UpdStatus.Downloading ≠ [] ∧
    intervalTick UpdStatus.Checking = intervalTick UpdStatus.Idle ∧
    checkForUpdates = [UAction.checkCall] := by
  refine ⟨rfl, rfl, ?_, rfl, rfl⟩
  decide

/-- C7: downloads are gated on explicit acceptance — the autoDownload
flag is off, the download call occurs exactly when the user answers Yes
to the availability prompt, and on decline the dispatch performs only
the prompt and a status notification. -/
theorem c7_download_gated_on_accept :
    autoDownload = false ∧
    (∀ ans, UAction.downloadUpdate ∈ onUpdateAvailable ans ↔ ans = Ans.yes) ∧
    onUpdateAvailable Ans.no
      = [UAction.showPrompt "Update Available",
         UAction.sendStatus "Update available. Downloading..."] := by
  refine ⟨rfl, ?_, rfl⟩
  intro ans
  cases ans <;> simp [onUpdateAvailable]

/-- Closed instance of C7: accepting triggers the download call,
declining does not. -/
theorem c7_download_gated_on_accept_witness :
    UAction.downloadUpdate ∈ onUpdateAvailable Ans.yes ∧
    UAction.downloadUpdate ∉ onUpdateAvailable Ans.no :=
  ⟨(c7_download_gated_on_accept.2.1 Ans.yes).mpr rfl,
   fun h => by
     have := (c7_download_gated_on_accept.2.1 Ans.no).mp h
     exact Ans.noConfusion this⟩

end Vibecheck
